import Mathlib

/-
  Shallow embedding of src/bios_boot.c (Industrial Computer BIOS Boot Logic,
  mainboard v2.1). The global `g_state` becomes an explicit `SystemState`
  value threaded through the functions; `uint8_t` arithmetic is modelled on
  `Nat` with an explicit `% 256`; the `uint8_t` status codes are `Nat`
  constants. Logging (`printf`, `log_boot`, `log_error`) has no effect on
  state or results and is dropped.
-/

/-- `#define TEMP_NORMAL_MAX 85` (src/bios_boot.c line 15). -/
def TEMP_NORMAL_MAX : Nat := 85

/-- `#define TEMP_HIGH_MAX 300` (src/bios_boot.c line 16). -/
def TEMP_HIGH_MAX : Nat := 300

/-- `#define TEMP_CRITICAL 140` (src/bios_boot.c line 17). -/
def TEMP_CRITICAL : Nat := 140

/-- `#define BOOT_RETRY_MAX 3` (src/bios_boot.c line 18). -/
def BOOT_RETRY_MAX : Nat := 3

/-- `#define BOOT_OK 0` (src/bios_boot.c line 21). -/
def BOOT_OK : Nat := 0

/-- `#define BOOT_TEMP_WARNING 1` (src/bios_boot.c line 22). -/
def BOOT_TEMP_WARNING : Nat := 1

/-- `#define BOOT_TEMP_CRITICAL 2` (src/bios_boot.c line 23). -/
def BOOT_TEMP_CRITICAL : Nat := 2

/-- `#define BOOT_FAILED 3` (src/bios_boot.c line 24). -/
def BOOT_FAILED : Nat := 3

/-- The C struct `SystemState` (src/bios_boot.c lines 27-32):
`uint16_t cpu_temp; uint16_t board_temp; uint8_t boot_count;
bool high_temp_mode;`. Temperatures and the counter are modelled as `Nat`;
the only arithmetic performed on them in the source is the `uint8_t`
increment of `boot_count`, modelled with an explicit `% 256`. -/
structure SystemState where
  cpu_temp : Nat
  board_temp : Nat
  boot_count : Nat
  high_temp_mode : Bool

/-- `read_cpu_temperature` (src/bios_boot.c lines 37-40): returns
`g_state.cpu_temp`. -/
def read_cpu_temperature (s : SystemState) : Nat := s.cpu_temp

/-- `read_board_temperature` (src/bios_boot.c lines 42-44): returns
`g_state.board_temp`. -/
def read_board_temperature (s : SystemState) : Nat := s.board_temp

/-- `check_thermal_conditions` (src/bios_boot.c lines 69-88). The function
stores the two sensor reads back into the global state, prints them, and
then checks only `g_state.cpu_temp > TEMP_NORMAL_MAX`, returning
`BOOT_TEMP_CRITICAL` in that case and `BOOT_OK` otherwise. `TEMP_CRITICAL`,
`board_temp` and `high_temp_mode` are never consulted: the block after the
first check is only TODO comments. Returns the status paired with the
updated global state. -/
def check_thermal_conditions (s : SystemState) : Nat × SystemState :=
  let s1 : SystemState :=
    { s with cpu_temp := read_cpu_temperature s
             board_temp := read_board_temperature s }
  if s1.cpu_temp > TEMP_NORMAL_MAX then
    (BOOT_TEMP_CRITICAL, s1)
  else
    (BOOT_OK, s1)

/-- `check_power_stability` (src/bios_boot.c lines 94-108): sets the local
`power_ok = true` and branches on it, so the function always returns
`true`. It reads and writes no global state. -/
def check_power_stability : Bool :=
  let power_ok : Bool := true
  if power_ok then true else false

/-- `bios_boot_sequence` (src/bios_boot.c lines 113-147) with the result of
the power gate abstracted as the parameter `power_ok` (the source branches
on the returned bool at line 124) and instrumented with a trace flag: the
final `Bool` records whether `check_thermal_conditions` was evaluated in
this attempt. Steps: increment `boot_count` (a `uint8_t`, hence `% 256`);
if the power gate failed return `BOOT_FAILED` without running the thermal
check; otherwise run the thermal check, abort with `BOOT_TEMP_CRITICAL`
when it reports critical, and return `BOOT_OK` after the (unconditional)
initialization steps. -/
def bios_boot_sequence_traced (power_ok : Bool) (s : SystemState) :
    Nat × SystemState × Bool :=
  let s1 : SystemState := { s with boot_count := (s.boot_count + 1) % 256 }
  if !power_ok then
    (BOOT_FAILED, s1, false)
  else
    let tr := check_thermal_conditions s1
    if tr.1 = BOOT_TEMP_CRITICAL then
      (BOOT_TEMP_CRITICAL, tr.2, true)
    else
      (BOOT_OK, tr.2, true)

/-- `bios_boot_sequence` (src/bios_boot.c lines 113-147) as called: the
power gate result is the actual `check_power_stability`, and the trace
flag is dropped. Returns the status code and the updated global state. -/
def bios_boot_sequence (s : SystemState) : Nat × SystemState :=
  let r := bios_boot_sequence_traced check_power_stability s
  (r.1, r.2.1)

/-- Closed form of `check_thermal_conditions`: the status depends only on
`cpu_temp > TEMP_NORMAL_MAX` and the state is returned unchanged (the two
sensor stores write each field back to itself). -/
theorem check_thermal_conditions_spec (s : SystemState) :
    check_thermal_conditions s =
      ((if s.cpu_temp > TEMP_NORMAL_MAX then BOOT_TEMP_CRITICAL else BOOT_OK), s) := by
  cases s with
  | mk c b n m =>
    unfold check_thermal_conditions read_cpu_temperature read_board_temperature
    by_cases h : c > TEMP_NORMAL_MAX <;> simp [h]

/-- Closed form of `bios_boot_sequence`: the power gate always passes, so
the status is decided by `cpu_temp > TEMP_NORMAL_MAX`, and the only state
change is the `uint8_t` increment of `boot_count`. -/
theorem bios_boot_sequence_spec (s : SystemState) :
    bios_boot_sequence s =
      ((if s.cpu_temp > TEMP_NORMAL_MAX then BOOT_TEMP_CRITICAL else BOOT_OK),
       { s with boot_count := (s.boot_count + 1) % 256 }) := by
  cases s with
  | mk c b n m =>
    unfold bios_boot_sequence bios_boot_sequence_traced check_power_stability
      check_thermal_conditions read_cpu_temperature read_board_temperature
    by_cases h : c > TEMP_NORMAL_MAX <;>
      simp [h, BOOT_TEMP_CRITICAL, BOOT_OK]

/-- Claim C1: the spec states that whenever `cpu_temp >= critical_temp` or
`board_temp >= critical_temp` (critical is 140) the thermal evaluation
aborts with the critical disposition regardless of mode. The code never
consults `TEMP_CRITICAL` nor `board_temp`: at `cpu_temp = 70`,
`board_temp = 150` (board above critical) the thermal check returns
`BOOT_OK` and the boot sequence completes with `BOOT_OK`. -/
theorem C1_board_critical_ignored :
    (check_thermal_conditions (SystemState.mk 70 150 0 false)).1 = BOOT_OK ∧
    (bios_boot_sequence (SystemState.mk 70 150 0 false)).1 = BOOT_OK := by
  exact ⟨rfl, rfl⟩

/-- Claim C2: the spec states that `cpu_temp = 95`, `board_temp = 90` in
`Normal` mode yields `ProceedWithWarning`, switches the mode to hardened,
and the boot completes. The code aborts: `95 > 85` returns
`BOOT_TEMP_CRITICAL`, the boot sequence returns `BOOT_TEMP_CRITICAL`, and
`high_temp_mode` is left `false` (no hardened mode exists in the code). -/
theorem C2_factory_hot_aborts :
    (check_thermal_conditions (SystemState.mk 95 90 0 false)).1 = BOOT_TEMP_CRITICAL ∧
    (bios_boot_sequence (SystemState.mk 95 90 0 false)).1 = BOOT_TEMP_CRITICAL ∧
    (bios_boot_sequence (SystemState.mk 95 90 0 false)).2.high_temp_mode = false := by
  exact ⟨rfl, rfl, rfl⟩

/-- Claim C3: the spec states that with both readings below the normal
maximum the evaluation returns `Proceed` and resets the mode to `Normal`
from any starting mode. The code does return `BOOT_OK` at
`cpu_temp = 75`, `board_temp = 70`, but it never writes `high_temp_mode`:
starting from the hardened mode (`high_temp_mode = true`) the flag is
still `true` afterwards, so the mode is not reset. -/
theorem C3_mode_not_reset :
    (check_thermal_conditions (SystemState.mk 75 70 0 true)).1 = BOOT_OK ∧
    (check_thermal_conditions (SystemState.mk 75 70 0 true)).2.high_temp_mode = true := by
  exact ⟨rfl, rfl⟩

/-- Claim C4, counterexample: the claim states that a reading with
`cpu_temp` exactly `85` is treated as exceeding the normal ceiling and the
evaluation does not return the plain `Proceed` disposition. The code uses
the strict comparison `cpu_temp > TEMP_NORMAL_MAX`, so at
`cpu_temp = 85`, `board_temp = 70` it returns `BOOT_OK`, the `Proceed`
status. -/
theorem C4_boundary_counterexample :
    (check_thermal_conditions (SystemState.mk 85 70 0 false)).1 = BOOT_OK := by
  exact rfl

/-- Claim C4, amended: a reading with `cpu_temp` exactly equal to
`TEMP_NORMAL_MAX` (85) is treated as still within the normal ceiling and
yields `BOOT_OK`; the comparison is strict, so the abort starts one degree
above, at `cpu_temp = 86`. This matches the inclusive `Proceed` rule
`cpu_temp <= normal_max_temp` of spec section 4.2 step 3. -/
theorem C4_boundary_strict (board count : Nat) (mode : Bool) :
    (check_thermal_conditions (SystemState.mk TEMP_NORMAL_MAX board count mode)).1
        = BOOT_OK ∧
    (check_thermal_conditions (SystemState.mk (TEMP_NORMAL_MAX + 1) board count mode)).1
        = BOOT_TEMP_CRITICAL := by
  exact ⟨rfl, rfl⟩

/-- Claim C5: if the power gate reports `false`, the boot sequence returns
`BOOT_FAILED` and the thermal check is never evaluated in that attempt.
Proved on `bios_boot_sequence_traced`, which abstracts the power-gate
result branched on at line 124 of the source and whose final flag records
whether `check_thermal_conditions` ran. -/
theorem C5_power_gate_blocks (s : SystemState) :
    (bios_boot_sequence_traced false s).1 = BOOT_FAILED ∧
    (bios_boot_sequence_traced false s).2.2 = false := by
  exact ⟨rfl, rfl⟩

/-- Claim C6, counterexample: `boot_count` is a `uint8_t`; a call made
when the counter holds 255 wraps it to 0, which is not an increase by
exactly one, and is a decrease across calls. -/
theorem C6_counter_wraps :
    (bios_boot_sequence (SystemState.mk 75 70 255 false)).2.boot_count = 0 ∧
    ¬ (bios_boot_sequence (SystemState.mk 75 70 255 false)).2.boot_count = 255 + 1 := by
  exact ⟨rfl, by decide⟩

/-- Claim C6, amended: each call to `bios_boot_sequence` sets
`boot_count` to its old value plus one modulo 256; whenever the old value
is below 255 the counter increases by exactly one, so it never decreases
until the 8-bit counter wraps from 255 back to 0. -/
theorem C6_increment_below_wrap (s : SystemState) (h : s.boot_count < 255) :
    (bios_boot_sequence s).2.boot_count = s.boot_count + 1 := by
  rw [bios_boot_sequence_spec]
  exact Nat.mod_eq_of_lt (by omega)

/-- Witness for C6: at a state with `boot_count = 3` the counter becomes
exactly 4. -/
theorem C6_increment_below_wrap_witness :
    (SystemState.mk 75 70 3 false).boot_count < 255 ∧
    (bios_boot_sequence (SystemState.mk 75 70 3 false)).2.boot_count =
      (SystemState.mk 75 70 3 false).boot_count + 1 := by
  exact ⟨by decide, C6_increment_below_wrap (SystemState.mk 75 70 3 false) (by decide)⟩

/-- Claim C7: the thermal evaluation is deterministic. Two states that
agree on the inputs the evaluation can observe (the two temperature
readings and the stored mode flag) yield the same status and the same
resulting mode flag. -/
theorem C7_thermal_deterministic (s t : SystemState)
    (h1 : s.cpu_temp = t.cpu_temp) (h2 : s.board_temp = t.board_temp)
    (h3 : s.high_temp_mode = t.high_temp_mode) :
    (check_thermal_conditions s).1 = (check_thermal_conditions t).1 ∧
    (check_thermal_conditions s).2.high_temp_mode =
      (check_thermal_conditions t).2.high_temp_mode := by
  rw [check_thermal_conditions_spec, check_thermal_conditions_spec, h1, h3]
  exact ⟨rfl, rfl⟩

/-- Witness for C7: two states identical except for `boot_count` give the
same thermal status and mode flag. -/
theorem C7_thermal_deterministic_witness :
    (SystemState.mk 95 90 0 false).cpu_temp = (SystemState.mk 95 90 7 false).cpu_temp ∧
    (SystemState.mk 95 90 0 false).board_temp = (SystemState.mk 95 90 7 false).board_temp ∧
    (SystemState.mk 95 90 0 false).high_temp_mode
        = (SystemState.mk 95 90 7 false).high_temp_mode ∧
    ((check_thermal_conditions (SystemState.mk 95 90 0 false)).1
        = (check_thermal_conditions (SystemState.mk 95 90 7 false)).1 ∧
     (check_thermal_conditions (SystemState.mk 95 90 0 false)).2.high_temp_mode
        = (check_thermal_conditions (SystemState.mk 95 90 7 false)).2.high_temp_mode) := by
  exact ⟨rfl, rfl, rfl,
    C7_thermal_deterministic (SystemState.mk 95 90 0 false)
      (SystemState.mk 95 90 7 false) rfl rfl rfl⟩

/-- Claim C8: `check_power_stability` always returns `true` (the local
`power_ok` is the constant `true`), so the `BOOT_FAILED` branch of
`bios_boot_sequence` is unreachable: no call ever returns `BOOT_FAILED`. -/
theorem C8_power_always_stable :
    check_power_stability = true ∧
    ∀ s : SystemState, (bios_boot_sequence s).1 ≠ BOOT_FAILED := by
  refine ⟨rfl, fun s => ?_⟩
  rw [bios_boot_sequence_spec]
  by_cases h : s.cpu_temp > TEMP_NORMAL_MAX <;> simp [h, BOOT_TEMP_CRITICAL, BOOT_OK, BOOT_FAILED]

/-- Claim C9: the board temperature has no influence on the outcome. Two
states that agree on every field except `board_temp` get the same thermal
status and the same boot-sequence status. -/
theorem C9_board_noninterference (s t : SystemState)
    (h1 : s.cpu_temp = t.cpu_temp) (h2 : s.boot_count = t.boot_count)
    (h3 : s.high_temp_mode = t.high_temp_mode) :
    (check_thermal_conditions s).1 = (check_thermal_conditions t).1 ∧
    (bios_boot_sequence s).1 = (bios_boot_sequence t).1 := by
  rw [check_thermal_conditions_spec, check_thermal_conditions_spec,
    bios_boot_sequence_spec, bios_boot_sequence_spec, h1]
  exact ⟨rfl, rfl⟩

/-- Witness for C9: two states that differ only in `board_temp` (90
against 150) give the same thermal status and the same boot status. -/
theorem C9_board_noninterference_witness :
    (SystemState.mk 95 90 0 false).cpu_temp = (SystemState.mk 95 150 0 false).cpu_temp ∧
    (SystemState.mk 95 90 0 false).boot_count = (SystemState.mk 95 150 0 false).boot_count ∧
    (SystemState.mk 95 90 0 false).high_temp_mode
        = (SystemState.mk 95 150 0 false).high_temp_mode ∧
    ((check_thermal_conditions (SystemState.mk 95 90 0 false)).1
        = (check_thermal_conditions (SystemState.mk 95 150 0 false)).1 ∧
     (bios_boot_sequence (SystemState.mk 95 90 0 false)).1
        = (bios_boot_sequence (SystemState.mk 95 150 0 false)).1) := by
  exact ⟨rfl, rfl, rfl,
    C9_board_noninterference (SystemState.mk 95 90 0 false)
      (SystemState.mk 95 150 0 false) rfl rfl rfl⟩

/-- Claim C10: nothing in the code writes `high_temp_mode`: after any call
to `check_thermal_conditions` or `bios_boot_sequence` the flag equals its
value before the call, so the hardened mode is never entered. -/
theorem C10_high_temp_mode_frame (s : SystemState) :
    (check_thermal_conditions s).2.high_temp_mode = s.high_temp_mode ∧
    (bios_boot_sequence s).2.high_temp_mode = s.high_temp_mode := by
  rw [check_thermal_conditions_spec, bios_boot_sequence_spec]
  exact ⟨rfl, rfl⟩
